import Mathlib

/-!
Shallow embedding of the DNS-over-Discord worker's interaction protocol.

Source files embedded:
- `src/index.js`: signature gate, interaction routing (`handleInteraction`,
  `handleCommandInteraction`, `handleComponentInteraction`, `handleRequest`)
  and the top-level fetch listener's catch.
- the `dig` command module: option extraction, validation fallbacks, and the
  deferred (ack now, edit later) response pattern of its `execute`.

Modelling conventions:
- JavaScript exceptions are `Except JsError`; a thrown error carries an
  optional `code` property (used for the MODULE_NOT_FOUND check).
- External collaborators that are not part of the repository sources
  (`verify`, `JSON.parse`, dynamic `import`, `validateDomain`, `handleDig`,
  `editDeferred`'s network outcome, the component builders from
  `dig-provider.js` / `dig-refresh.js`, the `providers` and `VALID_TYPES`
  tables) are parameters of an environment record, so every theorem
  quantifies over their behaviour.
- Observable side effects (Sentry scope calls, `captureException`,
  `console.log`, `editDeferred` calls) are recorded in an ordered trace.
- The two-phase deferred pattern is embedded as a timeline: the JS event
  loop runs the `async` IIFE's continuation after the first `await` only
  once the synchronous `execute` call has returned, so the synchronous
  response event precedes every background-task effect.
-/

/-- Error value thrown by JS code; `code` models the `err.code` property
checked against MODULE_NOT_FOUND by the component router. -/
structure JsError where
  code : Option String
  msg : String
  deriving DecidableEq, Repr, BEq

/-- Value of an interaction option as delivered by Discord: a string or a
boolean (the two option types the dig command declares). -/
inductive OptVal where
  | str (s : String)
  | bool (b : Bool)
  deriving DecidableEq, Repr, BEq

/-- JS truthiness of an option value: empty string and false are falsy. -/
def OptVal.isFalsy : OptVal → Bool
  | .str s => s == ""
  | .bool b => !b

/-- One element of `interaction.data.options`; `value` is `none` when the
property is absent (JS `undefined`). -/
structure InteractionOption where
  name : String
  value : Option OptVal
  deriving DecidableEq, Repr, BEq

/-- The `data` member of a parsed interaction body. Commands use `id`,
`name` and `options`; components use `custom_id`. -/
structure InteractionData where
  id : String := ""
  name : String := ""
  custom_id : String := ""
  options : List InteractionOption := []
  deriving DecidableEq, Repr, BEq

/-- A parsed interaction body (`JSON.parse(bodyText)`): `type` is the raw
Discord interaction type number. -/
structure Interaction where
  id : String := ""
  token : String := ""
  type : Nat := 0
  data : InteractionData := {}
  deriving DecidableEq, Repr, BEq

/-- Discord interaction type: PING. -/
def InteractionType.Ping : Nat := 1
/-- Discord interaction type: APPLICATION_COMMAND. -/
def InteractionType.ApplicationCommand : Nat := 2
/-- Discord interaction type: MESSAGE_COMPONENT. -/
def InteractionType.MessageComponent : Nat := 3

/-- Discord interaction response type: PONG. -/
def InteractionResponseType.Pong : Nat := 1
/-- Discord interaction response type: CHANNEL_MESSAGE_WITH_SOURCE. -/
def InteractionResponseType.ChannelMessageWithSource : Nat := 4
/-- Discord interaction response type: DEFERRED_CHANNEL_MESSAGE_WITH_SOURCE. -/
def InteractionResponseType.DeferredChannelMessageWithSource : Nat := 5

/-- Discord message flag EPHEMERAL (1 shl 6). -/
def MessageFlags.Ephemeral : Nat := 64

/-- Discord component type: ACTION_ROW. -/
def ComponentType.ActionRow : Nat := 1

/-- Opaque embed payload produced by the external `handleDig` collaborator. -/
structure Embed where
  raw : String
  deriving DecidableEq, Repr, BEq

/-- Opaque message-component object produced by the external component
builders (`dig-provider.js`, `dig-refresh.js`). -/
structure ComponentObj where
  raw : String
  deriving DecidableEq, Repr, BEq

/-- An action row wrapping message components. -/
structure Row where
  type : Nat
  components : List ComponentObj
  deriving DecidableEq, Repr, BEq

/-- The `data` member of a response envelope. -/
structure EnvelopeData where
  content : Option String := none
  flags : Option Nat := none
  embeds : List Embed := []
  components : List Row := []
  deriving DecidableEq, Repr, BEq

/-- A Discord interaction response payload (the object given to
`jsonResponse`). -/
structure ResponseEnvelope where
  type : Nat
  data : Option EnvelopeData := none
  deriving DecidableEq, Repr, BEq

/-- Payload of an `editDeferred` call. -/
structure EditData where
  content : Option String := none
  embeds : List Embed := []
  components : List Row := []
  deriving DecidableEq, Repr, BEq

/-- Observable side effect, recorded in program order. -/
inductive Effect where
  | setTransactionName (s : String)
  | setTag (k v : String)
  | setRequestBodyText (s : String)
  | setRequestBodyJson (i : Interaction)
  | consoleLog
  | captureException (err : JsError)
  | editDeferred (i : Interaction) (d : EditData)
  deriving DecidableEq, Repr, BEq

/-- Body of an HTTP `Response` object. -/
inductive RespBody where
  | empty
  | json (e : ResponseEnvelope)
  | text (s : String)
  deriving DecidableEq, Repr, BEq

/-- An HTTP `Response` object. -/
structure Resp where
  status : Nat := 200
  headers : List (String × String) := []
  body : RespBody := .empty
  deriving DecidableEq, Repr, BEq

/-- Util to send a JSON response (`jsonResponse` in `src/index.js`). -/
def jsonResponse (e : ResponseEnvelope) : Resp :=
  { status := 200
    headers := [("Content-Type", "application/json")]
    body := .json e }

/-- Util to send a perm redirect response (`redirectResponse`). -/
def redirectResponse (url : String) : Resp :=
  { status := 301
    headers := [("Location", url)]
    body := .empty }

/-- An inbound HTTP request: method, URL path, and the raw body text that
`request.text()` yields. Headers are folded into the environment's
`verify` collaborator, which receives the whole request. -/
structure Request where
  method : String := "POST"
  path : String := "/interactions"
  bodyText : String := ""
  deriving DecidableEq, Repr, BEq

/-- A loaded handler module's default export: its `execute` contract.
Throwing is modelled as returning `.error`. -/
structure Handler where
  execute : Interaction → Except JsError Resp

/-- Entry of the static `commands.json` registry: the handler module file
for a registered command id. -/
structure CommandData where
  file : String
  deriving DecidableEq, Repr, BEq

/-- Environment of external collaborators consumed by `src/index.js`:
the signature verifier, the JS runtime's `JSON.parse`, the static command
registry, dynamic module loading for commands and components, and the
static text/config values. -/
structure Env where
  verify : Request → String → Bool
  parseJson : String → Except JsError Interaction
  commands : String → Option CommandData
  loadCommand : String → Except JsError Handler
  loadComponent : String → Except JsError Handler
  privacyText : String := ""
  termsText : String := ""
  clientId : String := ""

/-- Process a Discord command interaction (`handleCommandInteraction` in
`src/index.js`): set Sentry scope, look up `commands[body.data.id]`
(absent gives a bare 404), then import and execute the handler inside a
try/catch that reports the error and answers with a fixed ephemeral
apology message. -/
def handleCommandInteraction (env : Env) (body : Interaction) : Resp × List Effect :=
  let pre : List Effect :=
    [ .setTransactionName ("command: " ++ body.data.name)
    , .setTag "command" body.data.name ]
  match env.commands body.data.id with
  | none => ({ status := 404, body := .empty }, pre)
  | some commandData =>
    let errPath : JsError → Resp × List Effect := fun err =>
      ( jsonResponse
          { type := InteractionResponseType.ChannelMessageWithSource
            data := some
              { content := some "An unexpected error occurred when executing the command."
                flags := some MessageFlags.Ephemeral } }
      , pre ++ [.consoleLog, .captureException err] )
    match env.loadCommand commandData.file with
    | .error err => errPath err
    | .ok command =>
      match command.execute body with
      | .ok r => (r, pre)
      | .error err => errPath err

/-- Process a Discord component interaction (`handleComponentInteraction`
in `src/index.js`): set Sentry scope, then import the handler by
`custom_id` and execute it inside one try/catch; a caught error whose
`code` is MODULE_NOT_FOUND yields a bare 404, any other caught error is
logged, reported and yields a bare 500. -/
def handleComponentInteraction (env : Env) (body : Interaction) : Resp × List Effect :=
  let pre : List Effect :=
    [ .setTransactionName ("component: " ++ body.data.custom_id)
    , .setTag "component" body.data.custom_id ]
  let catchPath : JsError → Resp × List Effect := fun err =>
    if err.code == some "MODULE_NOT_FOUND" then
      ({ status := 404, body := .empty }, pre)
    else
      ({ status := 500, body := .empty }, pre ++ [.consoleLog, .captureException err])
  match env.loadComponent body.data.custom_id with
  | .error err => catchPath err
  | .ok component =>
    match component.execute body with
    | .ok r => (r, pre)
    | .error err => catchPath err

/-- Process a Discord interaction POST request (`handleInteraction` in
`src/index.js`): record the raw body on Sentry, verify the request
against the raw body text, answer 401 on failure, otherwise `JSON.parse`
the same text (a parse exception propagates as `.error`) and dispatch on
`body.type`. -/
def handleInteraction (env : Env) (req : Request) : Except JsError (Resp × List Effect) :=
  let bodyText := req.bodyText
  if !(env.verify req bodyText) then
    .ok ({ status := 401, body := .empty }, [.setRequestBodyText bodyText])
  else
    match env.parseJson bodyText with
    | .error e => .error e
    | .ok body =>
      let pre : List Effect := [.setRequestBodyText bodyText, .setRequestBodyJson body]
      if body.type == InteractionType.Ping then
        .ok (jsonResponse { type := InteractionResponseType.Pong }, pre)
      else if body.type == InteractionType.ApplicationCommand then
        let (r, t) := handleCommandInteraction env body
        .ok (r, pre ++ t)
      else if body.type == InteractionType.MessageComponent then
        let (r, t) := handleComponentInteraction env body
        .ok (r, pre ++ t)
      else
        .ok ({ status := 501, body := .empty }, pre)

/-- Headers of the `/health` route. -/
def healthHeaders : List (String × String) :=
  [ ("Content-Type", "text/plain")
  , ("Cache-Control", "no-store, no-cache, must-revalidate, proxy-revalidate")
  , ("Expires", "0")
  , ("Surrogate-Control", "no-store") ]

/-- Process all requests to the worker (`handleRequest` in
`src/index.js`): the interactions POST route, then the GET-only static
and redirect routes, otherwise 404. -/
def handleRequest (env : Env) (req : Request) : Except JsError (Resp × List Effect) :=
  if req.method == "POST" && req.path == "/interactions" then
    handleInteraction env req
  else if req.method != "GET" then
    .ok ({ status := 404, body := .empty }, [])
  else if req.path == "/health" then
    .ok ({ status := 200, headers := healthHeaders, body := .text "OK" }, [])
  else if req.path == "/privacy" then
    .ok ({ status := 200, headers := [("Content-Type", "text/plain")], body := .text env.privacyText }, [])
  else if req.path == "/terms" then
    .ok ({ status := 200, headers := [("Content-Type", "text/plain")], body := .text env.termsText }, [])
  else if req.path == "/invite" then
    .ok (redirectResponse ("https://discord.com/oauth2/authorize?client_id=" ++ env.clientId ++ "&scope=applications.commands"), [])
  else if req.path == "/server" then
    .ok (redirectResponse "https://discord.gg/JgxVfGn", [])
  else if req.path == "/github" then
    .ok (redirectResponse "https://github.com/MattIPv4/DNS-over-Discord", [])
  else if req.path == "/" then
    .ok (redirectResponse "https://developers.cloudflare.com/1.1.1.1/other-ways-to-use-1.1.1.1/dns-over-discord", [])
  else
    .ok ({ status := 404, body := .empty }, [])

/-- The fetch listener's `.catch` (`addEventListener` in `src/index.js`):
run `handleRequest`; when it throws, report the error and re-throw it to
the hosting runtime. The first component is the settled outcome handed to
`event.respondWith` (`.error` means the promise rejects and no HTTP
response is produced by this code); the second lists the top-level catch's
own effects. -/
def workerFetch (env : Env) (req : Request) : Except JsError (Resp × List Effect) × List Effect :=
  match handleRequest env req with
  | .ok r => (.ok r, [])
  | .error e => (.error e, [.captureException e])

/-- Lookup of one raw option value: `interaction.data.options.find(...)`,
first match by name, `none` when absent or when the found option has no
`value` property. -/
def findOptVal (opts : List InteractionOption) (n : String) : Option OptVal :=
  (opts.find? (fun o => o.name == n)).bind (fun o => o.value)

/-- Helper dropping leading whitespace characters from a character list. -/
def dropWhileWs : List Char → List Char
  | [] => []
  | c :: cs => if c.isWhitespace then dropWhileWs cs else c :: cs

/-- Model of the JS `String.prototype.trim`: strip leading and trailing
whitespace. Defined by structural recursion over the character list so a
witness can evaluate it on concrete strings. -/
def jsTrim (s : String) : String :=
  ⟨(dropWhileWs (dropWhileWs s.data).reverse).reverse⟩

/-- String option extraction of the dig command:
`((options.find(...) || \x7b\x7d).value || '').trim()`. A falsy value
(absent, empty string, false) defaults to the empty string; calling
`.trim()` on the boolean `true` throws a TypeError. -/
def rawStrOption (opts : List InteractionOption) (n : String) : Except JsError String :=
  match findOptVal opts n with
  | none => .ok ""
  | some v =>
    if v.isFalsy then .ok ""
    else
      match v with
      | .str s => .ok (jsTrim s)
      | .bool _ => .error { code := none, msg := "TypeError: trim is not a function" }

/-- Boolean option extraction of the dig command:
`(options.find(...) || \x7b\x7d).value || false`. A truthy value passes
through unchanged (JS keeps a truthy string as-is). -/
def rawBoolOption (opts : List InteractionOption) (n : String) : OptVal :=
  match findOptVal opts n with
  | none => .bool false
  | some v => if v.isFalsy then .bool false else v

/-- Entry of the external `providers` table (`utils/providers.js`). -/
structure Provider where
  name : String
  deriving DecidableEq, Repr, BEq

/-- Result of the external `validateDomain` collaborator
(`utils/dig.js`): the parsed domain plus an optional error response built
with the `response` capability. -/
structure ValidateRes where
  domain : String := ""
  error : Option Resp := none

/-- Options object handed to the external `handleDig` collaborator.
`provider` is `none` when the `providers` table is empty and the JS
fallback `providers[0]` is `undefined`. -/
structure DigOpts where
  domain : String
  types : List String
  short : OptVal
  cdflag : OptVal
  provider : Option Provider
  deriving DecidableEq, Repr, BEq

/-- The background unit of work the dig `execute` hands to `wait`: the
values captured by the async IIFE's closure. -/
structure TaskSpec where
  interaction : Interaction
  domain : String
  type : String
  short : OptVal
  cdflag : OptVal
  provider : Option Provider
  deriving DecidableEq, Repr, BEq

/-- Synchronous result of the dig `execute`: the response returned to the
router plus the background tasks scheduled via `wait`. -/
structure ExecResult where
  resp : Resp
  tasks : List TaskSpec := []
  deriving DecidableEq, Repr, BEq

/-- Environment of external collaborators consumed by the dig command:
the `VALID_TYPES` and `providers` tables, `validateDomain`, `handleDig`,
the network outcome of an `editDeferred` call, and the component builders
from `dig-provider.js` / `dig-refresh.js`. -/
structure DigEnv where
  validTypes : List String
  providers : List Provider
  validateDomain : String → ValidateRes
  handleDig : DigOpts → Except JsError Embed
  editOutcome : EditData → Except JsError Unit
  digProviderComponent : String → ComponentObj
  digRefreshComponent : ComponentObj

/-- Synchronous part of the dig command's `execute`: extract the raw
option values, return `validateDomain`'s error response when present,
compute the type fallback (`VALID_TYPES.includes(rawType) ? rawType :
'A'`) and the provider fallback (`providers.find(...) || providers[0]`),
schedule the background task via `wait`, and return the deferred
acknowledgement envelope. -/
def digExecute (env : DigEnv) (i : Interaction) : Except JsError ExecResult :=
  match rawStrOption i.data.options "domain" with
  | .error e => .error e
  | .ok rawDomain =>
    match rawStrOption i.data.options "type" with
    | .error e => .error e
    | .ok rawType =>
      let rawShort := rawBoolOption i.data.options "short"
      let rawCdflag := rawBoolOption i.data.options "cdflag"
      match rawStrOption i.data.options "provider" with
      | .error e => .error e
      | .ok rawProvider =>
        let vres := env.validateDomain rawDomain
        match vres.error with
        | some errResp => .ok { resp := errResp }
        | none =>
          let type := if env.validTypes.contains rawType then rawType else "A"
          let provider :=
            match env.providers.find? (fun p => p.name == rawProvider) with
            | some p => some p
            | none => env.providers.head?
          .ok
            { resp := jsonResponse { type := InteractionResponseType.DeferredChannelMessageWithSource }
              tasks :=
                [ { interaction := i
                    domain := vres.domain
                    type := type
                    short := rawShort
                    cdflag := rawCdflag
                    provider := provider } ] }

/-- Options object built inside the background task from the captured
values. -/
def digOptsOf (spec : TaskSpec) : DigOpts :=
  { domain := spec.domain
    types := [spec.type]
    short := spec.short
    cdflag := spec.cdflag
    provider := spec.provider }

/-- Payload of the fallback edit issued by the background task's catch. -/
def failEditData : EditData :=
  { content := some "Sorry, something went wrong when processing your DNS query" }

/-- Payload of the successful corrective edit: the embed plus the
provider and refresh action rows. -/
def successEditData (env : DigEnv) (embed : Embed) (providerName : String) : EditData :=
  { embeds := [embed]
    components :=
      [ { type := ComponentType.ActionRow, components := [env.digProviderComponent providerName] }
      , { type := ComponentType.ActionRow, components := [env.digRefreshComponent] } ] }

/-- The background task's `.catch`: report the original error, attempt
one fallback edit whose own failure is swallowed by `.catch(() => \x7b\x7d)`,
then re-throw the original error for the hosting runtime. -/
def digCatch (spec : TaskSpec) (err : JsError) : List Effect × Option JsError :=
  ([.captureException err, .editDeferred spec.interaction failEditData], some err)

/-- TypeError thrown when `provider.name` is read off `undefined`
(possible only when the `providers` table is empty). -/
def undefinedNameError : JsError :=
  { code := none, msg := "TypeError: cannot read properties of undefined" }

/-- Run one background task to settlement: run `handleDig`, then issue the
corrective edit; any throw lands in `digCatch`. The result is the ordered
effect trace plus the error the settled promise rejects with, if any. -/
def runDigTask (env : DigEnv) (spec : TaskSpec) : List Effect × Option JsError :=
  match env.handleDig (digOptsOf spec) with
  | .error err => digCatch spec err
  | .ok embed =>
    match spec.provider with
    | none => digCatch spec undefinedNameError
    | some p =>
      let d := successEditData env embed p.name
      match env.editOutcome d with
      | .ok _ => ([.editDeferred spec.interaction d], none)
      | .error err =>
        let c := digCatch spec err
        (.editDeferred spec.interaction d :: c.1, c.2)

/-- One observable step of the deferred protocol: either the synchronous
response reaching the caller, or a background-task side effect. -/
inductive Event where
  | responded (r : Resp)
  | effect (e : Effect)
  deriving DecidableEq, Repr, BEq

/-- Full observable timeline of one dig invocation. The JS event loop
runs the scheduled task's continuations only after the synchronous
`execute` call has returned its response, so the `responded` event
precedes every background effect. -/
def digTimeline (env : DigEnv) (i : Interaction) : Except JsError (List Event) :=
  match digExecute env i with
  | .error e => .error e
  | .ok r =>
    .ok (Event.responded r.resp ::
      r.tasks.foldr (fun s acc => (runDigTask env s).1.map Event.effect ++ acc) [])

/-- Count of `captureException` effects in a trace. -/
def countCaptures (t : List Effect) : Nat :=
  (t.filter fun e =>
    match e with
    | .captureException _ => true
    | _ => false).length

/-- Whether an effect is an `editDeferred` call carrying the fixed
fallback failure payload. -/
def isFallbackEdit : Effect → Bool
  | .editDeferred _ d => d == failEditData
  | _ => false

/-- Acknowledgement response the dig command returns synchronously. -/
def digAck : Resp :=
  jsonResponse { type := InteractionResponseType.DeferredChannelMessageWithSource }

/-- C1: for every POST to `/interactions`, verification runs on the exact
raw body text as received; when it does not return true the response is
401 with an empty body, the only effect is the Sentry raw-body recording,
and no parser, registry or handler is consulted (the outcome is invariant
under replacing all of them). -/
theorem interactions_unverified_401 (env : Env) (req : Request)
    (h : env.verify req req.bodyText = false) :
    handleInteraction env req =
      .ok ({ status := 401, body := .empty }, [.setRequestBodyText req.bodyText]) ∧
    ∀ p c lc lcomp,
      handleInteraction
        { env with parseJson := p, commands := c, loadCommand := lc, loadComponent := lcomp }
        req =
      handleInteraction env req := by
  constructor
  · simp [handleInteraction, h]
  · intro p c lc lcomp
    simp [handleInteraction, h]

/-- C7: a verified Ping interaction yields the 200 JSON Pong envelope with
no registry lookup or handler execution: the outcome is invariant under
replacing the registry and both loaders. -/
theorem ping_pong_no_registry (env : Env) (req : Request) (body : Interaction)
    (hv : env.verify req req.bodyText = true)
    (hp : env.parseJson req.bodyText = .ok body)
    (ht : body.type = InteractionType.Ping) :
    handleInteraction env req =
      .ok (jsonResponse { type := InteractionResponseType.Pong },
        [.setRequestBodyText req.bodyText, .setRequestBodyJson body]) ∧
    ∀ c lc lcomp,
      handleInteraction { env with commands := c, loadCommand := lc, loadComponent := lcomp } req =
      handleInteraction env req := by
  constructor
  · simp [handleInteraction, hv, hp, ht]
  · intro c lc lcomp
    simp [handleInteraction, hv, hp, ht]

/-- C6: a verified Command interaction whose `data.id` is absent from the
registry yields a bare 404, the reporter is never called, and the loader
is never consulted. -/
theorem command_unknown_id_404 (env : Env) (body : Interaction)
    (h : env.commands body.data.id = none) :
    handleCommandInteraction env body =
      ({ status := 404, body := .empty },
        [ .setTransactionName ("command: " ++ body.data.name)
        , .setTag "command" body.data.name ]) ∧
    countCaptures (handleCommandInteraction env body).2 = 0 ∧
    ∀ lc,
      handleCommandInteraction { env with loadCommand := lc } body =
      handleCommandInteraction env body := by
  refine ⟨?_, ?_, ?_⟩
  · simp [handleCommandInteraction, h]
  · simp [handleCommandInteraction, h, countCaptures]
  · intro lc
    simp [handleCommandInteraction, h]

/-- C5: a verified Command interaction whose handler is found but throws
is reported after the command-name tag was set on the Sentry scope, and
the response is the 200 JSON ephemeral fixed apology message, which does
not depend on the exception. -/
theorem command_execution_failure_apology (env : Env) (body : Interaction)
    (cd : CommandData) (hdl : Handler) (err : JsError)
    (hc : env.commands body.data.id = some cd)
    (hl : env.loadCommand cd.file = .ok hdl)
    (he : hdl.execute body = .error err) :
    handleCommandInteraction env body =
      ( jsonResponse
          { type := InteractionResponseType.ChannelMessageWithSource
            data := some
              { content := some "An unexpected error occurred when executing the command."
                flags := some MessageFlags.Ephemeral } }
      , [ .setTransactionName ("command: " ++ body.data.name)
        , .setTag "command" body.data.name
        , .consoleLog
        , .captureException err ] ) := by
  simp [handleCommandInteraction, hc, hl, he]

/-- C8: a verified POST to `/interactions` whose body is not valid JSON
escapes the interaction handler as the parse exception, which the
top-level catch reports once and re-throws to the hosting runtime, so no
HTTP status is produced by this code. -/
theorem invalid_json_propagates (env : Env) (req : Request) (e : JsError)
    (hm : req.method = "POST") (hp : req.path = "/interactions")
    (hv : env.verify req req.bodyText = true)
    (hj : env.parseJson req.bodyText = .error e) :
    handleInteraction env req = .error e ∧
    workerFetch env req = (.error e, [.captureException e]) := by
  have h1 : handleInteraction env req = .error e := by
    simp [handleInteraction, hv, hj]
  refine ⟨h1, ?_⟩
  simp [workerFetch, handleRequest, hm, hp, h1]

/-- C2: a verified Component interaction whose handler load fails with a
MODULE_NOT_FOUND error yields a bare 404 with no reporter call, while one
whose loaded handler's execute throws any error without that code yields
a bare 500 and exactly one reporter call. -/
theorem component_not_found_vs_execution_failure
    (env1 env2 : Env) (b1 b2 : Interaction) (err1 : JsError) (hdl : Handler) (err2 : JsError)
    (h1 : env1.loadComponent b1.data.custom_id = .error err1)
    (h2 : err1.code = some "MODULE_NOT_FOUND")
    (h3 : env2.loadComponent b2.data.custom_id = .ok hdl)
    (h4 : hdl.execute b2 = .error err2)
    (h5 : err2.code ≠ some "MODULE_NOT_FOUND") :
    handleComponentInteraction env1 b1 =
      ({ status := 404, body := .empty },
        [ .setTransactionName ("component: " ++ b1.data.custom_id)
        , .setTag "component" b1.data.custom_id ]) ∧
    countCaptures (handleComponentInteraction env1 b1).2 = 0 ∧
    handleComponentInteraction env2 b2 =
      ({ status := 500, body := .empty },
        [ .setTransactionName ("component: " ++ b2.data.custom_id)
        , .setTag "component" b2.data.custom_id
        , .consoleLog
        , .captureException err2 ]) ∧
    countCaptures (handleComponentInteraction env2 b2).2 = 1 := by
  have hb : (err2.code == some "MODULE_NOT_FOUND") = false := by
    simp [h5]
  refine ⟨?_, ?_, ?_, ?_⟩
  · simp [handleComponentInteraction, h1, h2]
  · simp [handleComponentInteraction, h1, h2, countCaptures]
  · simp [handleComponentInteraction, h3, h4, hb]
  · simp [handleComponentInteraction, h3, h4, hb, countCaptures]

/-- C9: the 404-versus-500 classification for components looks only at the
thrown error's `code`: an error carrying MODULE_NOT_FOUND thrown from a
successfully loaded handler's execute is also answered 404 and is not
reported. -/
theorem component_mnf_code_classifies (env : Env) (body : Interaction)
    (hdl : Handler) (err : JsError)
    (h1 : env.loadComponent body.data.custom_id = .ok hdl)
    (h2 : hdl.execute body = .error err)
    (h3 : err.code = some "MODULE_NOT_FOUND") :
    handleComponentInteraction env body =
      ({ status := 404, body := .empty },
        [ .setTransactionName ("component: " ++ body.data.custom_id)
        , .setTag "component" body.data.custom_id ]) ∧
    countCaptures (handleComponentInteraction env body).2 = 0 := by
  refine ⟨?_, ?_⟩
  · simp [handleComponentInteraction, h1, h2, h3]
  · simp [handleComponentInteraction, h1, h2, h3, countCaptures]

/-- C3: when the dig command's validation passes, the value returned
synchronously to the caller is always the deferred acknowledgement
envelope, and every corrective `editDeferred` effect appears strictly
after that response event in the observable timeline, for every behaviour
of the background work. -/
theorem dig_deferred_ack_precedes_edit (env : DigEnv) (i : Interaction) (rd rt rp : String)
    (h1 : rawStrOption i.data.options "domain" = .ok rd)
    (h2 : rawStrOption i.data.options "type" = .ok rt)
    (h3 : rawStrOption i.data.options "provider" = .ok rp)
    (h4 : (env.validateDomain rd).error = none) :
    ∃ evts, digTimeline env i = .ok evts ∧
      evts.head? = some (Event.responded digAck) ∧
      ∀ n j d, evts.get? n = some (Event.effect (Effect.editDeferred j d)) →
        ∃ m, m < n ∧ evts.get? m = some (Event.responded digAck) := by
  have hex : digExecute env i = .ok
      { resp := digAck
        tasks :=
          [ { interaction := i
              domain := (env.validateDomain rd).domain
              type := if env.validTypes.contains rt then rt else "A"
              short := rawBoolOption i.data.options "short"
              cdflag := rawBoolOption i.data.options "cdflag"
              provider :=
                match env.providers.find? (fun p => p.name == rp) with
                | some p => some p
                | none => env.providers.head? } ] } := by
    simp [digExecute, h1, h2, h3, h4, digAck]
  refine ⟨Event.responded digAck ::
    (runDigTask env
      { interaction := i
        domain := (env.validateDomain rd).domain
        type := if env.validTypes.contains rt then rt else "A"
        short := rawBoolOption i.data.options "short"
        cdflag := rawBoolOption i.data.options "cdflag"
        provider :=
          match env.providers.find? (fun p => p.name == rp) with
          | some p => some p
          | none => env.providers.head? }).1.map Event.effect, ?_, rfl, ?_⟩
  · simp [digTimeline, hex]
  · intro n j d hn
    match n with
    | 0 => simp [List.get?] at hn
    | Nat.succ m => exact ⟨0, Nat.succ_pos m, rfl⟩

/-- C4: when the dig background work throws, the task reports the original
error, attempts exactly one fallback edit carrying the fixed failure
message, swallows any failure of that fallback edit (the outcome is
invariant under every edit-outcome behaviour), and re-throws the original
error to the hosting runtime. -/
theorem dig_background_failure_fallback (env : DigEnv) (spec : TaskSpec) (err : JsError)
    (h : env.handleDig (digOptsOf spec) = .error err) :
    runDigTask env spec =
      ([.captureException err, .editDeferred spec.interaction failEditData], some err) ∧
    ((runDigTask env spec).1.filter isFallbackEdit).length = 1 ∧
    countCaptures (runDigTask env spec).1 = 1 ∧
    ∀ g, runDigTask { env with editOutcome := g } spec = runDigTask env spec := by
  refine ⟨?_, ?_, ?_, ?_⟩
  · simp [runDigTask, h, digCatch]
  · have hb : (failEditData == failEditData) = true := by decide
    simp [runDigTask, h, digCatch, List.filter, isFallbackEdit, hb]
  · simp [runDigTask, h, digCatch, countCaptures]
  · intro g
    simp [runDigTask, h, digCatch]

/-- C10: with a valid domain, an unrecognized or missing type option falls
back to the literal string A and an unrecognized or missing provider
option falls back to the first entry of the providers table; the
synchronous response is still the deferred acknowledgement, never an
error response. -/
theorem dig_option_fallbacks (env : DigEnv) (i : Interaction) (rd rt rp : String)
    (h1 : rawStrOption i.data.options "domain" = .ok rd)
    (h2 : rawStrOption i.data.options "type" = .ok rt)
    (h3 : rawStrOption i.data.options "provider" = .ok rp)
    (h4 : (env.validateDomain rd).error = none)
    (hT : env.validTypes.contains rt = false)
    (hP : env.providers.find? (fun p => p.name == rp) = none) :
    digExecute env i = .ok
      { resp := digAck
        tasks :=
          [ { interaction := i
              domain := (env.validateDomain rd).domain
              type := "A"
              short := rawBoolOption i.data.options "short"
              cdflag := rawBoolOption i.data.options "cdflag"
              provider := env.providers.head? } ] } := by
  have hm : rt ∉ env.validTypes := by simpa using hT
  simp [digExecute, h1, h2, h3, h4, hm, hP, digAck]

/-- Generic execution error used by the concrete witnesses. -/
def sampleErr : JsError := { code := none, msg := "boom" }

/-- Module-resolution error used by the concrete witnesses. -/
def mnfErr : JsError := { code := some "MODULE_NOT_FOUND", msg := "Cannot find module" }

/-- JSON parse error used by the concrete witnesses. -/
def parseFailErr : JsError := { code := none, msg := "SyntaxError: Unexpected token" }

/-- Handler whose execute throws a generic error. -/
def throwingHandler : Handler := { execute := fun _ => .error sampleErr }

/-- Handler whose execute throws an error carrying the MODULE_NOT_FOUND
code. -/
def mnfThrowingHandler : Handler := { execute := fun _ => .error mnfErr }

/-- Environment where verification fails, parsing throws, the registry is
empty and both loaders fail with module-resolution errors. -/
def denyEnv : Env :=
  { verify := fun _ _ => false
    parseJson := fun _ => .error parseFailErr
    commands := fun _ => none
    loadCommand := fun _ => .error mnfErr
    loadComponent := fun _ => .error mnfErr }

/-- Witness for C1 at a concrete unsigned request. -/
theorem interactions_unverified_401_witness :
    denyEnv.verify { bodyText := "not json" } "not json" = false ∧
    (handleInteraction denyEnv { bodyText := "not json" } =
      .ok ({ status := 401, body := .empty }, [.setRequestBodyText "not json"]) ∧
     ∀ p c lc lcomp,
       handleInteraction
         { denyEnv with parseJson := p, commands := c, loadCommand := lc, loadComponent := lcomp }
         { bodyText := "not json" } =
       handleInteraction denyEnv { bodyText := "not json" }) :=
  ⟨rfl, interactions_unverified_401 denyEnv { bodyText := "not json" } rfl⟩

/-- A parsed Ping interaction body. -/
def pingInteraction : Interaction := { id := "9", type := 1 }

/-- Environment where verification succeeds and parsing yields the Ping
body, while the registry stays empty and both loaders fail. -/
def pingEnv : Env :=
  { denyEnv with verify := fun _ _ => true, parseJson := fun _ => .ok pingInteraction }

/-- Witness for C7 at a concrete verified Ping request against the empty
registry. -/
theorem ping_pong_no_registry_witness :
    pingEnv.verify { bodyText := "ping" } "ping" = true ∧
    pingEnv.parseJson "ping" = .ok pingInteraction ∧
    pingInteraction.type = InteractionType.Ping ∧
    (handleInteraction pingEnv { bodyText := "ping" } =
      .ok (jsonResponse { type := InteractionResponseType.Pong },
        [.setRequestBodyText "ping", .setRequestBodyJson pingInteraction]) ∧
     ∀ c lc lcomp,
       handleInteraction { pingEnv with commands := c, loadCommand := lc, loadComponent := lcomp }
         { bodyText := "ping" } =
       handleInteraction pingEnv { bodyText := "ping" }) :=
  ⟨rfl, rfl, rfl, ping_pong_no_registry pingEnv { bodyText := "ping" } pingInteraction rfl rfl rfl⟩

/-- A Command interaction body whose id is not registered. -/
def unknownCommandBody : Interaction :=
  { id := "5", type := 2, data := { id := "999", name := "nope" } }

/-- Witness for C6 at a concrete unregistered command id. -/
theorem command_unknown_id_404_witness :
    denyEnv.commands unknownCommandBody.data.id = none ∧
    (handleCommandInteraction denyEnv unknownCommandBody =
      ({ status := 404, body := .empty },
        [ .setTransactionName ("command: " ++ unknownCommandBody.data.name)
        , .setTag "command" unknownCommandBody.data.name ]) ∧
     countCaptures (handleCommandInteraction denyEnv unknownCommandBody).2 = 0 ∧
     ∀ lc,
       handleCommandInteraction { denyEnv with loadCommand := lc } unknownCommandBody =
       handleCommandInteraction denyEnv unknownCommandBody) :=
  ⟨rfl, command_unknown_id_404 denyEnv unknownCommandBody rfl⟩

/-- A Command interaction body for the registered dig command. -/
def digCommandBody : Interaction :=
  { id := "6", type := 2, data := { id := "123", name := "dig" } }

/-- Environment whose registry resolves every command id to the dig module
and whose loader returns the throwing handler. -/
def cmdEnv : Env :=
  { denyEnv with
    commands := fun _ => some { file := "dig.js" }
    loadCommand := fun _ => .ok throwingHandler }

/-- Witness for C5 at a concrete command whose handler throws. -/
theorem command_execution_failure_apology_witness :
    cmdEnv.commands digCommandBody.data.id = some { file := "dig.js" } ∧
    cmdEnv.loadCommand "dig.js" = .ok throwingHandler ∧
    throwingHandler.execute digCommandBody = .error sampleErr ∧
    handleCommandInteraction cmdEnv digCommandBody =
      ( jsonResponse
          { type := InteractionResponseType.ChannelMessageWithSource
            data := some
              { content := some "An unexpected error occurred when executing the command."
                flags := some MessageFlags.Ephemeral } }
      , [ .setTransactionName ("command: " ++ digCommandBody.data.name)
        , .setTag "command" digCommandBody.data.name
        , .consoleLog
        , .captureException sampleErr ] ) :=
  ⟨rfl, rfl, rfl,
    command_execution_failure_apology cmdEnv digCommandBody { file := "dig.js" } throwingHandler
      sampleErr rfl rfl rfl⟩

/-- A Component interaction body. -/
def componentBody : Interaction :=
  { id := "7", type := 3, data := { custom_id := "dig-refresh" } }

/-- Environment whose component loader returns the throwing handler. -/
def compEnv : Env := { denyEnv with loadComponent := fun _ => .ok throwingHandler }

/-- Witness for C2: one concrete component whose module does not resolve
and one whose loaded handler throws a generic error. -/
theorem component_not_found_vs_execution_failure_witness :
    denyEnv.loadComponent componentBody.data.custom_id = .error mnfErr ∧
    mnfErr.code = some "MODULE_NOT_FOUND" ∧
    compEnv.loadComponent componentBody.data.custom_id = .ok throwingHandler ∧
    throwingHandler.execute componentBody = .error sampleErr ∧
    sampleErr.code ≠ some "MODULE_NOT_FOUND" ∧
    (handleComponentInteraction denyEnv componentBody =
      ({ status := 404, body := .empty },
        [ .setTransactionName ("component: " ++ componentBody.data.custom_id)
        , .setTag "component" componentBody.data.custom_id ]) ∧
     countCaptures (handleComponentInteraction denyEnv componentBody).2 = 0 ∧
     handleComponentInteraction compEnv componentBody =
      ({ status := 500, body := .empty },
        [ .setTransactionName ("component: " ++ componentBody.data.custom_id)
        , .setTag "component" componentBody.data.custom_id
        , .consoleLog
        , .captureException sampleErr ]) ∧
     countCaptures (handleComponentInteraction compEnv componentBody).2 = 1) :=
  ⟨rfl, rfl, rfl, rfl, by decide,
    component_not_found_vs_execution_failure denyEnv compEnv componentBody componentBody mnfErr
      throwingHandler sampleErr rfl rfl rfl rfl (by decide)⟩

/-- Environment whose component loader returns the handler that throws a
MODULE_NOT_FOUND-coded error from execute. -/
def compMnfEnv : Env := { denyEnv with loadComponent := fun _ => .ok mnfThrowingHandler }

/-- Witness for C9 at a concrete loaded component whose execute throws an
error carrying the MODULE_NOT_FOUND code. -/
theorem component_mnf_code_classifies_witness :
    compMnfEnv.loadComponent componentBody.data.custom_id = .ok mnfThrowingHandler ∧
    mnfThrowingHandler.execute componentBody = .error mnfErr ∧
    mnfErr.code = some "MODULE_NOT_FOUND" ∧
    (handleComponentInteraction compMnfEnv componentBody =
      ({ status := 404, body := .empty },
        [ .setTransactionName ("component: " ++ componentBody.data.custom_id)
        , .setTag "component" componentBody.data.custom_id ]) ∧
     countCaptures (handleComponentInteraction compMnfEnv componentBody).2 = 0) :=
  ⟨rfl, rfl, rfl,
    component_mnf_code_classifies compMnfEnv componentBody mnfThrowingHandler mnfErr rfl rfl rfl⟩

/-- Environment where verification succeeds but parsing still throws. -/
def jsonFailEnv : Env := { denyEnv with verify := fun _ _ => true }

/-- Witness for C8 at a concrete verified POST whose body is not JSON. -/
theorem invalid_json_propagates_witness :
    Request.method { bodyText := "not json" } = "POST" ∧
    Request.path { bodyText := "not json" } = "/interactions" ∧
    jsonFailEnv.verify { bodyText := "not json" } "not json" = true ∧
    jsonFailEnv.parseJson "not json" = .error parseFailErr ∧
    (handleInteraction jsonFailEnv { bodyText := "not json" } = .error parseFailErr ∧
     workerFetch jsonFailEnv { bodyText := "not json" } =
       (.error parseFailErr, [.captureException parseFailErr])) :=
  ⟨rfl, rfl, rfl, rfl,
    invalid_json_propagates jsonFailEnv { bodyText := "not json" } parseFailErr rfl rfl rfl rfl⟩

/-- Concrete dig environment for the witnesses: two providers, three
record types, a validator that accepts everything, and a succeeding
lookup. -/
def sampleDigEnv : DigEnv :=
  { validTypes := ["A", "AAAA", "TXT"]
    providers := [{ name := "Cloudflare" }, { name := "Google" }]
    validateDomain := fun s => { domain := s, error := none }
    handleDig := fun _ => .ok { raw := "answer-embed" }
    editOutcome := fun _ => .ok ()
    digProviderComponent := fun n => { raw := n }
    digRefreshComponent := { raw := "refresh" } }

/-- Concrete dig invocation carrying only the required domain option. -/
def sampleDigInteraction : Interaction :=
  { id := "42", token := "tok", type := 2
    data :=
      { id := "123", name := "dig"
        options := [{ name := "domain", value := some (.str "example.com") }] } }

/-- Witness for C3 at a concrete valid dig invocation. -/
theorem dig_deferred_ack_precedes_edit_witness :
    rawStrOption sampleDigInteraction.data.options "domain" = .ok "example.com" ∧
    rawStrOption sampleDigInteraction.data.options "type" = .ok "" ∧
    rawStrOption sampleDigInteraction.data.options "provider" = .ok "" ∧
    (sampleDigEnv.validateDomain "example.com").error = none ∧
    (∃ evts, digTimeline sampleDigEnv sampleDigInteraction = .ok evts ∧
      evts.head? = some (Event.responded digAck) ∧
      ∀ n j d, evts.get? n = some (Event.effect (Effect.editDeferred j d)) →
        ∃ m, m < n ∧ evts.get? m = some (Event.responded digAck)) :=
  ⟨rfl, rfl, rfl, rfl,
    dig_deferred_ack_precedes_edit sampleDigEnv sampleDigInteraction "example.com" "" ""
      rfl rfl rfl rfl⟩

/-- Concrete dig environment whose lookup collaborator throws. -/
def failDigEnv : DigEnv := { sampleDigEnv with handleDig := fun _ => .error sampleErr }

/-- Concrete background task of a dig invocation. -/
def sampleTaskSpec : TaskSpec :=
  { interaction := sampleDigInteraction
    domain := "example.com"
    type := "A"
    short := .bool false
    cdflag := .bool false
    provider := some { name := "Cloudflare" } }

/-- Witness for C4 at a concrete background task whose work throws. -/
theorem dig_background_failure_fallback_witness :
    failDigEnv.handleDig (digOptsOf sampleTaskSpec) = .error sampleErr ∧
    (runDigTask failDigEnv sampleTaskSpec =
      ([.captureException sampleErr, .editDeferred sampleTaskSpec.interaction failEditData],
        some sampleErr) ∧
     ((runDigTask failDigEnv sampleTaskSpec).1.filter isFallbackEdit).length = 1 ∧
     countCaptures (runDigTask failDigEnv sampleTaskSpec).1 = 1 ∧
     ∀ g, runDigTask { failDigEnv with editOutcome := g } sampleTaskSpec =
       runDigTask failDigEnv sampleTaskSpec) :=
  ⟨rfl, dig_background_failure_fallback failDigEnv sampleTaskSpec sampleErr rfl⟩

/-- Concrete dig invocation whose type and provider options carry values
matching no table entry. -/
def bogusOptionsInteraction : Interaction :=
  { id := "43", token := "tok2", type := 2
    data :=
      { id := "123", name := "dig"
        options :=
          [ { name := "domain", value := some (.str "example.com") }
          , { name := "type", value := some (.str "BOGUS") }
          , { name := "provider", value := some (.str "Nobody") } ] } }

/-- Witness for C10 at a concrete dig invocation with unrecognized type
and provider option values. -/
theorem dig_option_fallbacks_witness :
    rawStrOption bogusOptionsInteraction.data.options "domain" = .ok "example.com" ∧
    rawStrOption bogusOptionsInteraction.data.options "type" = .ok "BOGUS" ∧
    rawStrOption bogusOptionsInteraction.data.options "provider" = .ok "Nobody" ∧
    (sampleDigEnv.validateDomain "example.com").error = none ∧
    sampleDigEnv.validTypes.contains "BOGUS" = false ∧
    sampleDigEnv.providers.find? (fun p => p.name == "Nobody") = none ∧
    digExecute sampleDigEnv bogusOptionsInteraction = .ok
      { resp := digAck
        tasks :=
          [ { interaction := bogusOptionsInteraction
              domain := (sampleDigEnv.validateDomain "example.com").domain
              type := "A"
              short := rawBoolOption bogusOptionsInteraction.data.options "short"
              cdflag := rawBoolOption bogusOptionsInteraction.data.options "cdflag"
              provider := sampleDigEnv.providers.head? } ] } :=
  ⟨rfl, rfl, rfl, rfl, by decide, by decide,
    dig_option_fallbacks sampleDigEnv bogusOptionsInteraction "example.com" "BOGUS" "Nobody"
      rfl rfl rfl rfl (by decide) (by decide)⟩
